import Mathlib

/-!
# Verification of the bilibili live danmaku CLI protocol engine

Shallow embedding of `src/main.rs`: the connection session loop
(`start_listening`), the depacked-message processing
(`process_depacked_message`), and the supervisor loop in `main`.

Timestamps are modelled as integers measured in milliseconds
(`chrono::DateTime<Utc>` differences are exact at this granularity for the
constants involved: `TimeDelta::seconds(20)` = 20000 ms).

The modules `packet`, `depack`, `message` and `config` are not part of the
given sources; where a claim depends on them, the modelled pieces carry a
`Modelled from the spec:` doc comment and are abstracted no further than the
claims require.
-/

namespace BiliDanmaku

/-- Guard membership tier, as matched in `process_live_message`
(`GuardLevel::{Captain, Commander, Governor}`). -/
inductive GuardLevel
  | captain
  | commander
  | governor
deriving DecidableEq, Repr

/-- Viewer-interaction sub-type, as matched in `process_live_message`
(`InteractType::{Enter, Follow, Share, SpecialFollow, MutualFollow}`). -/
inductive InteractType
  | enter
  | follow
  | share
  | specialFollow
  | mutualFollow
deriving DecidableEq, Repr

/-- Fan badge payload: fields `badge_name` and `level` read in
`process_live_message`. -/
structure FanBadge where
  badge_name : String
  level : Nat
deriving DecidableEq, Repr

/-- Fields of the `Welcome` payload read in `process_live_message`. -/
structure WelcomeInfo where
  username : String
  is_admin : Bool
deriving DecidableEq, Repr

/-- Fields of the `WelcomeGuard` payload read in `process_live_message`. -/
structure WelcomeGuardInfo where
  username : String
  guard_level : Option GuardLevel
deriving DecidableEq, Repr

/-- Fields of the `Warning` / `LiveCutOff` payloads read in
`process_live_message`. -/
structure WarningInfo where
  message : String
deriving DecidableEq, Repr

/-- Fields of the `Danmaku` payload read in `process_live_message`. -/
structure DanmakuInfo where
  username : String
  text : String
  is_admin : Bool
  guard_level : Option GuardLevel
  badge : Option FanBadge
deriving DecidableEq, Repr

/-- Fields of the `SendGift` payload read in `process_live_message`. -/
structure GiftInfo where
  username : String
  count : Nat
  gift_name : String
deriving DecidableEq, Repr

/-- Fields of the `SuperChat` payload read in `process_live_message`.
The price is kept as an integer number of currency cents. -/
structure SuperChatInfo where
  username : String
  price : Nat
  message : String
deriving DecidableEq, Repr

/-- Fields of the `Interact` payload read in `process_live_message`. -/
structure InteractInfo where
  username : String
  interact_type : InteractType
deriving DecidableEq, Repr

/-- Fields of the `GuardBuy` payload read in `process_live_message`. -/
structure GuardBuyInfo where
  username : String
  guard_level : GuardLevel
  count : Nat
deriving DecidableEq, Repr

/-- The closed room-event taxonomy `LiveMessage`, with exactly the variants
matched in `process_live_message` in `main.rs`. The `LiveStart`/`LiveStop`
payloads are ignored there (`LiveStart(_)` patterns), so they are modelled
without a payload. -/
inductive LiveMessage
  | liveStart
  | liveStop
  | welcome (info : WelcomeInfo)
  | welcomeGuard (info : WelcomeGuardInfo)
  | warning (info : WarningInfo)
  | liveCutOff (info : WarningInfo)
  | danmaku (info : DanmakuInfo)
  | sendGift (info : GiftInfo)
  | superChat (info : SuperChatInfo)
  | interact (info : InteractInfo)
  | guardBuy (info : GuardBuyInfo)
deriving DecidableEq, Repr

/-- The error type `RawMessageDeserializeError` with the two variants matched
in `process_depacked_message`. -/
inductive RawMessageDeserializeError
  | notSupported (cmd : String)
  | deserializeError
deriving DecidableEq, Repr

/-- Modelled from the spec: the `message` module's raw envelope type
(`RawMessage`) together with the decode rules of the Message Decoder is not
in the given sources; the session-loop claims quantify over all possible
decode outcomes, so an envelope is modelled by the outcome
`LiveMessage::try_from` produces on it: a decodable envelope carrying its
room event, an envelope whose command string is unsupported, or an envelope
whose payload fails to deserialize. -/
inductive RawMessage
  | decodes (m : LiveMessage)
  | unsupported (cmd : String)
  | malformed
deriving DecidableEq, Repr

/-- Modelled from the spec: `LiveMessage::try_from(RawMessage)` — "decode an
envelope to one variant of a closed room-event taxonomy, or signal
unsupported command / malformed payload"; on the abstracted `RawMessage`
this reads off the recorded outcome. -/
def LiveMessage.tryFrom : RawMessage → Except RawMessageDeserializeError LiveMessage
  | .decodes m => .ok m
  | .unsupported cmd => .error (.notSupported cmd)
  | .malformed => .error .deserializeError

/-- The `DepackedMessage` enum from the `depack` module, with exactly the
variants matched in `process_depacked_message`. -/
inductive DepackedMessage
  | certificateResp
  | heartbeatResp (count : Nat)
  | liveMessages (msgs : List RawMessage)
deriving DecidableEq, Repr

/-- The `for raw_message in messages` loop body of
`process_depacked_message`: decode each raw message in order; on
`NotSupported` or `DeserializeError` log and `continue`; on success call
`process_live_message`. The returned list is the sequence of events handed
to `process_live_message` (the consumer), in call order. -/
def processLiveMessageLoop : List RawMessage → List LiveMessage
  | [] => []
  | rm :: rest =>
    match LiveMessage.tryFrom rm with
    | .ok m => m :: processLiveMessageLoop rest
    | .error _ => processLiveMessageLoop rest

/-- Function `process_depacked_message` from `main.rs`: certificate and heartbeat
responses are only logged (early `return`, no consumer call); a
`LiveMessages` batch is decoded entry by entry. The result is the ordered
list of events delivered to the consumer. -/
def process_depacked_message : DepackedMessage → List LiveMessage
  | .certificateResp => []
  | .heartbeatResp _ => []
  | .liveMessages msgs => processLiveMessageLoop msgs

/-- Outcome of locally parsing one received data message inside the drain
loop of `start_listening`: `deserialize_packet` may fail (frame error, the
`continue` at its `Err` arm), `depack_packets` may fail (the
`continue 'poll` at its `Err` arm), or a `DepackedMessage` is produced. The
parsers live in the `packet`/`depack` modules outside the given sources, so
a message is modelled by which of these outcomes it produces. -/
inductive ParsedData
  | frameError
  | depackError
  | depacked (m : DepackedMessage)
deriving DecidableEq, Repr

/-- One result of `client.recv_message()` as discriminated by
`start_listening`: an `Ok` close message, an `Ok` data message (modelled by
its local parse outcome), an `Err` that is `IoError` of kind `WouldBlock`,
the `NoDataAvailable` error, an `IoError` of any other kind, or any other
`WebSocketError`. -/
inductive RecvEvent
  | closeMsg
  | dataMsg (d : ParsedData)
  | ioWouldBlock
  | noDataAvailable
  | ioError
  | otherWsError
deriving DecidableEq, Repr

/-- How the `'poll` drain loop of `start_listening` terminated:
`endClean` models the `return Ok(())` paths (a close message, or
`NoDataAvailable`); `burstWouldBlock` models `continue 'main` on a
`WouldBlock` io error (no log); `burstError` models every other receive
error (logged with `log::warn!`, then the `'main` loop continues);
`exhausted` marks a model input that ran out of receive results (a real
socket always yields one more result, `WouldBlock` at the latest). -/
inductive DrainOutcome
  | endClean
  | burstWouldBlock
  | burstError
  | exhausted
deriving DecidableEq, Repr

/-- Whether a drain outcome is the `return Ok(())` of `start_listening`. -/
def DrainOutcome.ends : DrainOutcome → Bool
  | .endClean => true
  | _ => false

/-- Events produced from one received data message: a frame or depack error
produces none (the `continue`), otherwise `process_depacked_message` runs. -/
def processParsed : ParsedData → List LiveMessage
  | .frameError => []
  | .depackError => []
  | .depacked m => process_depacked_message m

/-- The `'poll` drain loop of `start_listening`: consume receive results in
order until a close message or receive error, collecting the events
delivered to the consumer. Returns the ordered event list and how the loop
terminated. -/
def drain : List RecvEvent → List LiveMessage × DrainOutcome
  | [] => ([], .exhausted)
  | .closeMsg :: _ => ([], .endClean)
  | .dataMsg d :: rest =>
    let r := drain rest
    (processParsed d ++ r.1, r.2)
  | .ioWouldBlock :: _ => ([], .burstWouldBlock)
  | .noDataAvailable :: _ => ([], .endClean)
  | .ioError :: _ => ([], .burstError)
  | .otherWsError :: _ => ([], .burstError)

/-- The session-local mutable state of `start_listening`: the
`last_heartbeat` timestamp (ms). The socket handle is implicit: receive
results and send results are inputs of each tick. -/
structure SessionState where
  lastHeartbeat : Int
deriving DecidableEq, Repr

/-- The heartbeat interval `TimeDelta::seconds(20)` in milliseconds. -/
def heartbeatDeltaMs : Int := 20000

/-- The heartbeat condition of `start_listening`:
`last_heartbeat.checked_add_signed(TimeDelta::seconds(20)).is_some_and(|time| Utc::now() > time)`.
With unbounded integer time the `checked_add` never overflows, leaving the
strict comparison `now > last_heartbeat + 20 s`. -/
def heartbeatDue (s : SessionState) (now : Int) : Bool :=
  decide (s.lastHeartbeat + heartbeatDeltaMs < now)

/-- The environment of one `'main` loop iteration: the clock value at the
heartbeat check, whether `client.send_message` of the heartbeat packet
would succeed, the clock value `Utc::now()` reads right after a successful
send, and the receive results the drain loop will see. -/
structure TickInput where
  now : Int
  hbSendOk : Bool
  hbSendTime : Int
  recvs : List RecvEvent
deriving DecidableEq, Repr

/-- Observable result of one `'main` loop iteration. -/
structure TickOutput where
  /-- a heartbeat send was attempted this tick -/
  hbSent : Bool
  /-- session state after the tick -/
  next : SessionState
  /-- events delivered to the consumer this tick, in order -/
  events : List LiveMessage
  /-- the iteration executed `return Ok(())` -/
  ended : Bool
  /-- a transport error was logged by the `log::warn!` after the drain -/
  burstLogged : Bool
deriving DecidableEq, Repr

/-- One iteration of the `'main` loop of `start_listening`: check the
heartbeat condition, attempt the send if due (advancing `last_heartbeat`
only on success, logging on failure), then drain all available inbound
messages. -/
def tick (s : SessionState) (inp : TickInput) : TickOutput :=
  let due := heartbeatDue s inp.now
  let lastHb :=
    if due then (if inp.hbSendOk then inp.hbSendTime else s.lastHeartbeat)
    else s.lastHeartbeat
  let r := drain inp.recvs
  { hbSent := due
    next := ⟨lastHb⟩
    events := r.1
    ended := (r.2).ends
    burstLogged := decide (r.2 = .burstError) }

/-- Modelled from the spec: the outbound certificate body built by
`certificate_packet` in the `packet` module (not in the given sources):
JSON `{uid, roomid, protover: 2, platform: "web", type: 2, key: token}`. -/
structure CertificateBody where
  uid : Nat
  roomid : Nat
  protover : Nat
  platform : String
  type : Nat
  key : String
deriving DecidableEq, Repr

/-- Modelled from the spec: `certificate_packet(uid, room_id, token)`. -/
def certificate_packet (uid roomId : Nat) (token : String) : CertificateBody :=
  { uid := uid, roomid := roomId, protover := 2, platform := "web",
    type := 2, key := token }

/-- A frame sent by the session over the socket. -/
inductive OutFrame
  | certificate (body : CertificateBody)
  | heartbeat
deriving DecidableEq, Repr

/-- State and sent frames after the pre-loop part of `start_listening`. -/
structure InitOutput where
  state : SessionState
  sent : List OutFrame
deriving DecidableEq, Repr

/-- The pre-loop part of `start_listening` (connect succeeded): read
`last_heartbeat = Utc::now()` at `connectTime`, send the certificate
packet, and fall through into the `'main` loop. A fresh state is built
from the call's own arguments only. -/
def sessionInit (connectTime : Int) (uid roomId : Nat) (token : String) :
    InitOutput :=
  { state := ⟨connectTime⟩
    sent := [.certificate (certificate_packet uid roomId token)] }

/-- The expression `config.uid.unwrap_or(0)` in `main`: the viewer id passed
to `start_listening` when none is configured. -/
def effectiveUid (configUid : Option Nat) : Nat :=
  configUid.getD 0

/-- What the supervisor loop in `main` does after one session ends. -/
structure SupervisorAction where
  delaySecs : Nat
  restart : Bool
deriving DecidableEq, Repr

/-- The body of the `loop` in `main` after `start_listening` returns: both
the `Err` branch and the `Ok` branch only log, then
`sleep(Duration::from_secs(5))` runs and the loop continues
unconditionally. `attempt` is the number of sessions already ended;
`result` the returned value of the session. -/
def supervisorAfterSession (_attempt : Nat) (result : Except String Unit) :
    SupervisorAction :=
  match result with
  | .ok _ => { delaySecs := 5, restart := true }
  | .error _ => { delaySecs := 5, restart := true }

/-! ## Helper lemmas -/

/-- Unfolding one data message at the head of the drain loop. -/
lemma drain_cons_data (d : ParsedData) (rest : List RecvEvent) :
    drain (RecvEvent.dataMsg d :: rest)
      = (processParsed d ++ (drain rest).1, (drain rest).2) := rfl

/-- A run of data messages contributes its events in order and leaves the
termination of the drain loop to the remaining receive results. -/
lemma drain_map_data_append (pre : List ParsedData) (l : List RecvEvent) :
    drain (pre.map RecvEvent.dataMsg ++ l)
      = ((pre.map processParsed).flatten ++ (drain l).1, (drain l).2) := by
  induction pre with
  | nil => simp
  | cons d rest ih => simp [drain_cons_data, ih]

/-! ## Claims -/

/-- C1 (counterexample): the claim says a heartbeat is sent if and only if
at least 20 s have elapsed; at a tick where exactly 20 s (20000 ms) have
elapsed since the last heartbeat, the code's strict comparison
`Utc::now() > last_heartbeat + 20 s` is false and no heartbeat is sent,
refuting the "if" direction. -/
theorem C1_counterexample :
    ¬ (((tick ⟨0⟩ ⟨20000, true, 20000, []⟩).hbSent = true) ↔
        heartbeatDeltaMs ≤ (20000 : Int) - 0) := by
  decide

/-- C1 (amended): on every poll tick, a heartbeat frame is sent if and only
if strictly more than 20 s have elapsed since the last heartbeat (or since
session start); in particular no heartbeat is sent when less than 20 s have
elapsed. -/
theorem C1_heartbeat_condition (s : SessionState) (inp : TickInput) :
    (tick s inp).hbSent = true ↔ s.lastHeartbeat + heartbeatDeltaMs < inp.now := by
  simp [tick, heartbeatDue]

/-- C2: for every receive result reached during a drain burst (after any run
of data messages `pre`): a would-block result ends the burst without ending
the session and without an error log; a no-data result or a close signal
ends the session cleanly, with no receive result after it processed; any
other transport error is logged and leaves the session active. -/
theorem C2_transport_results (pre : List ParsedData) (rest : List RecvEvent)
    (s : SessionState) (now sendTime : Int) (ok : Bool) :
    ((tick s ⟨now, ok, sendTime,
        pre.map .dataMsg ++ .ioWouldBlock :: rest⟩).ended = false ∧
      (tick s ⟨now, ok, sendTime,
        pre.map .dataMsg ++ .ioWouldBlock :: rest⟩).burstLogged = false) ∧
    ((tick s ⟨now, ok, sendTime,
        pre.map .dataMsg ++ .noDataAvailable :: rest⟩).ended = true ∧
      (tick s ⟨now, ok, sendTime,
        pre.map .dataMsg ++ .noDataAvailable :: rest⟩).events
        = (pre.map processParsed).flatten) ∧
    ((tick s ⟨now, ok, sendTime,
        pre.map .dataMsg ++ .closeMsg :: rest⟩).ended = true ∧
      (tick s ⟨now, ok, sendTime,
        pre.map .dataMsg ++ .closeMsg :: rest⟩).events
        = (pre.map processParsed).flatten) ∧
    ((tick s ⟨now, ok, sendTime,
        pre.map .dataMsg ++ .ioError :: rest⟩).ended = false ∧
      (tick s ⟨now, ok, sendTime,
        pre.map .dataMsg ++ .ioError :: rest⟩).burstLogged = true) ∧
    ((tick s ⟨now, ok, sendTime,
        pre.map .dataMsg ++ .otherWsError :: rest⟩).ended = false ∧
      (tick s ⟨now, ok, sendTime,
        pre.map .dataMsg ++ .otherWsError :: rest⟩).burstLogged = true) := by
  simp [tick, drain_map_data_append, drain, DrainOutcome.ends]

/-- C3: every local protocol error (frame parse failure, depack failure,
unsupported command, payload deserialize failure) discards exactly the one
frame or envelope that produced it: the rest of the drain burst and the
rest of the envelope batch are processed unchanged, and a data message can
never be what ends the session. -/
theorem C3_local_errors :
    (∀ rest, drain (RecvEvent.dataMsg .frameError :: rest) = drain rest) ∧
    (∀ rest, drain (RecvEvent.dataMsg .depackError :: rest) = drain rest) ∧
    (∀ cmd rest, processLiveMessageLoop (RawMessage.unsupported cmd :: rest)
        = processLiveMessageLoop rest) ∧
    (∀ rest, processLiveMessageLoop (RawMessage.malformed :: rest)
        = processLiveMessageLoop rest) ∧
    (∀ d rest, (drain (RecvEvent.dataMsg d :: rest)).2 = (drain rest).2) := by
  refine ⟨fun rest => ?_, fun rest => ?_, fun cmd rest => ?_,
    fun rest => ?_, fun d rest => ?_⟩ <;>
    simp [drain_cons_data, processParsed, processLiveMessageLoop,
      LiveMessage.tryFrom]

/-- C4: events are delivered in exactly the order their frames were
received — a run of data messages contributes the concatenation, frame by
frame, of each frame's events — and inside one envelope batch the events
are the batch's list order filtered through the decoder. The whole model is
a sequential function, matching the single-threaded loop (no concurrent
decoding exists to model). -/
theorem C4_ordering (pre : List ParsedData) :
    (∀ (s : SessionState) (now sendTime : Int) (ok : Bool)
        (l : List RecvEvent),
      (tick s ⟨now, ok, sendTime, pre.map .dataMsg ++ l⟩).events
        = (pre.map processParsed).flatten ++ (drain l).1) ∧
    (∀ msgs, processLiveMessageLoop msgs
        = msgs.filterMap (fun rm => (LiveMessage.tryFrom rm).toOption)) := by
  constructor
  · intro s now sendTime ok l
    simp [tick, drain_map_data_append]
  · intro msgs
    induction msgs with
    | nil => rfl
    | cons rm rest ih =>
      cases rm <;> simp [processLiveMessageLoop, LiveMessage.tryFrom,
        Except.toOption, ih]

/-- C5: right after connect the session sends exactly one certificate frame
and its state is immediately the active-loop state (no waiting phase
exists between the send and the poll loop); a later CertificateAccepted
outcome produces no consumer event and no state change: a tick beginning
with a certificate response behaves exactly as the same tick without it. -/
theorem C5_certificate_handshake :
    (∀ t uid rid tok, (sessionInit t uid rid tok).sent
        = [OutFrame.certificate (certificate_packet uid rid tok)]) ∧
    (∀ t uid rid tok, (sessionInit t uid rid tok).state = ⟨t⟩) ∧
    (∀ (s : SessionState) (now sendTime : Int) (ok : Bool)
        (rest : List RecvEvent),
      tick s ⟨now, ok, sendTime,
          RecvEvent.dataMsg (.depacked .certificateResp) :: rest⟩
        = tick s ⟨now, ok, sendTime, rest⟩) := by
  refine ⟨fun t uid rid tok => rfl, fun t uid rid tok => rfl, ?_⟩
  intro s now sendTime ok rest
  simp [tick, drain_cons_data, processParsed, process_depacked_message]

/-- C6: after every session end the supervisor performs the same action —
wait exactly 5 s and restart — independently of the attempt number and of
whether the session returned cleanly or with an error; in particular the
delay never grows and no attempt limit exists. -/
theorem C6_supervisor_fixed_delay :
    ∀ (n m : Nat) (r₁ r₂ : Except String Unit),
      supervisorAfterSession n r₁ = { delaySecs := 5, restart := true } ∧
      supervisorAfterSession n r₁ = supervisorAfterSession m r₂ := by
  intro n m r₁ r₂
  cases r₁ <;> cases r₂ <;> exact ⟨rfl, rfl⟩

/-- C7: a failed heartbeat send leaves the whole session state unchanged
(so the following tick behaves exactly as a tick from the original state,
and the due-condition only becomes more true as time passes, so the send is
attempted again), never ends the session (ending is decided by the drain
alone), while a successful send advances the timestamp to the send time. -/
theorem C7_heartbeat_send_failure (s : SessionState) (now sendTime : Int)
    (recvs : List RecvEvent) (k : Nat) (inp' : TickInput) :
    (tick s ⟨now, false, sendTime, recvs⟩).next = s ∧
    (tick s ⟨now, false, sendTime, recvs⟩).ended = ((drain recvs).2).ends ∧
    tick (tick s ⟨now, false, sendTime, recvs⟩).next inp' = tick s inp' ∧
    heartbeatDue s now ≤ heartbeatDue s (now + (k : Int)) ∧
    (tick s ⟨now, true, sendTime, recvs⟩).next.lastHeartbeat
      = (if heartbeatDue s now then sendTime else s.lastHeartbeat) := by
  have hnext : (tick s ⟨now, false, sendTime, recvs⟩).next = s := by
    simp [tick]
  refine ⟨hnext, rfl, by rw [hnext], ?_, by simp [tick]⟩
  have h : s.lastHeartbeat + heartbeatDeltaMs < now →
      s.lastHeartbeat + heartbeatDeltaMs < now + (k : Int) := by
    omega
  by_cases hd : s.lastHeartbeat + heartbeatDeltaMs < now
  · simp [heartbeatDue, hd, h hd]
  · simp [heartbeatDue, hd]

/-- C8: among the dispatched control outcomes only the envelope-batch
variant can deliver consumer events: certificate and heartbeat
acknowledgments (whatever popularity count the latter carries) produce no
event, and any outcome producing an event is an envelope batch. -/
theorem C8_control_outcomes :
    process_depacked_message .certificateResp = [] ∧
    (∀ c, process_depacked_message (.heartbeatResp c) = []) ∧
    (∀ m : DepackedMessage, (∃ msgs, m = .liveMessages msgs) ∨
      process_depacked_message m = []) := by
  refine ⟨rfl, fun c => rfl, ?_⟩
  intro m
  cases m with
  | certificateResp => exact Or.inr rfl
  | heartbeatResp c => exact Or.inr rfl
  | liveMessages msgs => exact Or.inl ⟨msgs, rfl⟩

/-- C9: with no configured viewer id the session runs with viewer id 0 and
the outbound certificate frame carries uid 0. -/
theorem C9_default_uid :
    effectiveUid none = 0 ∧
    ∀ (t : Int) (rid : Nat) (tok : String),
      (sessionInit t (effectiveUid none) rid tok).sent
        = [OutFrame.certificate
            { uid := 0, roomid := rid, protover := 2, platform := "web",
              type := 2, key := tok }] := by
  exact ⟨rfl, fun t rid tok => rfl⟩

/-- C10: a fresh session's state and sent frames are fully determined by its
own arguments — the last-heartbeat timestamp starts at the session's own
connect time — and a tick of a fresh session attempts a heartbeat exactly
when more than 20 s have passed since connect; in particular no heartbeat
is sent during the first 20 s. The session is a pure function of its
arguments, so no state of an earlier session can flow into it. -/
theorem C10_fresh_session (c : Int) (uid rid : Nat) (tok : String) :
    (sessionInit c uid rid tok).state.lastHeartbeat = c ∧
    sessionInit c uid rid tok
      = ⟨⟨c⟩, [.certificate (certificate_packet uid rid tok)]⟩ ∧
    (∀ (now sendTime : Int) (ok : Bool) (recvs : List RecvEvent),
      (tick (sessionInit c uid rid tok).state
          ⟨now, ok, sendTime, recvs⟩).hbSent
        = decide (c + heartbeatDeltaMs < now)) ∧
    (∀ (d : Nat) (sendTime : Int) (ok : Bool) (recvs : List RecvEvent),
      (tick (sessionInit c uid rid tok).state
          ⟨c + (min d 20000 : Nat), ok, sendTime, recvs⟩).hbSent = false) := by
  refine ⟨rfl, rfl, fun now sendTime ok recvs => rfl, ?_⟩
  intro d sendTime ok recvs
  have h : ¬ (c + heartbeatDeltaMs < c + ((min d 20000 : Nat) : Int)) := by
    have : ((min d 20000 : Nat) : Int) ≤ 20000 := by
      omega
    simp only [heartbeatDeltaMs]
    omega
  show heartbeatDue ⟨c⟩ (c + ((min d 20000 : Nat) : Int)) = false
  simpa [heartbeatDue] using h

end BiliDanmaku
